import Mathlib

/-!
# Verification of the library book-catalog service

Shallow embedding of the book-catalog CRUD service and its wishlist
notification worker.  The database tables (`books`, `wishlists`) are
modelled as Lean lists of records; the ORM calls used by the service
(`findFirst`, `findMany`, `create`, `update`, `count`) become pure list
operations; the `books_isbn_key` unique index declared in the initial
migration is modelled inside the embedded `create`/`update` calls, since
it constrains them at the database layer.  Errors thrown by the service
(`AppError` with an HTTP status) and the ORM (`P2002` unique-constraint
violations) become an `Except` error type together with the status-code
mapping performed by the global error handler.
-/

/-- The `availabilityStatus` enum: `'Available' | 'Borrowed'`. -/
inductive AvailabilityStatus
  | Available
  | Borrowed
deriving DecidableEq, Repr

/-- A row of the `books` table (`id`, `title`, `author`, `isbn`,
`publishedYear`, `availabilityStatus`, `createdAt`, `updatedAt`,
`isDeleted`, `deletedAt`).  Timestamps are abstract `Nat` instants. -/
structure Book where
  id : Nat
  title : String
  author : String
  isbn : String
  publishedYear : Nat
  availabilityStatus : AvailabilityStatus
  createdAt : Nat
  updatedAt : Nat
  isDeleted : Bool
  deletedAt : Option Nat
deriving DecidableEq, Repr

/-- `BookCreateInput` from `types/index.ts`: `availabilityStatus` is
optional and defaults to `Available` in `createBook`. -/
structure BookCreateInput where
  title : String
  author : String
  isbn : String
  publishedYear : Nat
  availabilityStatus : Option AvailabilityStatus := none
deriving DecidableEq, Repr

/-- `BookUpdateInput` from `types/index.ts`: every field optional. -/
structure BookUpdateInput where
  title : Option String := none
  author : Option String := none
  isbn : Option String := none
  publishedYear : Option Nat := none
  availabilityStatus : Option AvailabilityStatus := none
deriving DecidableEq, Repr

/-- The error outcomes of the service layer and the database layer:
`duplicateIsbn` and `notFound` are the service's `AppError`s from
`utils/errors.ts`; `uniqueConstraint` is the ORM's `P2002`
unique-constraint violation raised by the `books_isbn_key` index;
`recordNotFound` is the ORM's `P2025`. -/
inductive BookError
  | duplicateIsbn
  | notFound
  | uniqueConstraint
  | recordNotFound
deriving DecidableEq, Repr

/-- The HTTP status each error is surfaced with: `AppError`s carry their
own status (`BOOK_ERRORS` in `utils/errors.ts`); `P2002` and `P2025` are
mapped by the global error handler to 409 and 404. -/
def BookError.statusCode : BookError → Nat
  | .duplicateIsbn => 409
  | .notFound => 404
  | .uniqueConstraint => 409
  | .recordNotFound => 404

/-- The user-visible message for each error, from `utils/errors.ts` and
the error handler's `PRISMA_ERRORS` mapping. -/
def BookError.message : BookError → String
  | .duplicateIsbn => "Book with this ISBN already exists"
  | .notFound => "Book not found"
  | .uniqueConstraint => "Duplicate entry. This ISBN already exists."
  | .recordNotFound => "Resource not found"

/-- Embeds `prisma.book.create` together with the `books_isbn_key`
unique index from the initial migration: the index spans every row of
the table (soft-deleted rows included), so the insert fails with `P2002`
whenever any row already holds the ISBN.  On success the new row is
appended with server-assigned id and timestamps. -/
def prismaBookCreate (db : List Book) (newId now : Nat) (title author isbn : String)
    (publishedYear : Nat) (availabilityStatus : AvailabilityStatus) :
    Except BookError (Book × List Book) :=
  if db.any (fun b => b.isbn == isbn) then
    .error .uniqueConstraint
  else
    let book : Book :=
      { id := newId, title := title, author := author, isbn := isbn,
        publishedYear := publishedYear, availabilityStatus := availabilityStatus,
        createdAt := now, updatedAt := now, isDeleted := false, deletedAt := none }
    .ok (book, db ++ [book])

/-- `BookService.createBook`: duplicate-ISBN pre-check restricted to
non-deleted books (`findFirst { isbn, isDeleted: false }`), then the
database insert. -/
def createBook (db : List Book) (newId now : Nat) (data : BookCreateInput) :
    Except BookError (Book × List Book) :=
  let availabilityStatus := data.availabilityStatus.getD .Available
  match db.find? (fun b => b.isbn == data.isbn && !b.isDeleted) with
  | some _ => .error .duplicateIsbn
  | none =>
      prismaBookCreate db newId now data.title data.author data.isbn
        data.publishedYear availabilityStatus

/-- `BookService.deleteBook`: looks up a non-deleted book with the id;
when absent (missing or already soft-deleted) throws `NotFound`,
otherwise sets the `isDeleted` flag and the `deletedAt` timestamp on
that row — no row is ever removed from the table. -/
def deleteBook (db : List Book) (id : Nat) (now : Nat) :
    Except BookError Unit × List Book :=
  match db.find? (fun b => b.id == id && !b.isDeleted) with
  | none => (.error .notFound, db)
  | some _ =>
      (.ok (),
        db.map (fun b =>
          if b.id == id then { b with isDeleted := true, deletedAt := some now } else b))

/-- `BookService.getBookById` (for an id that parsed to an integer):
`findFirst { id, isDeleted: false }`, throwing `NotFound` when absent. -/
def getBookById (db : List Book) (id : Nat) : Except BookError Book :=
  match db.find? (fun b => b.id == id && !b.isDeleted) with
  | some book => .ok book
  | none => .error .notFound

/-- A member of the notification queue: the job name, the payload
(`bookId`, `bookTitle`), and the fixed priority used by the enqueue. -/
structure NotificationJob where
  name : String
  bookId : Nat
  bookTitle : String
  priority : Nat
deriving DecidableEq, Repr

/-- The job name used when `updateBook` enqueues. -/
def wishlistJobName : String := "wishlist-notification"

/-- The record produced by applying a partial `BookUpdateInput` to a row
(the `data` object passed to `prisma.book.update`: absent fields keep
their current value, `updatedAt` is refreshed). -/
def applyBookUpdate (b : Book) (data : BookUpdateInput) (now : Nat) : Book :=
  { b with
    title := data.title.getD b.title
    author := data.author.getD b.author
    isbn := data.isbn.getD b.isbn
    publishedYear := data.publishedYear.getD b.publishedYear
    availabilityStatus := data.availabilityStatus.getD b.availabilityStatus
    updatedAt := now }

/-- Embeds `prisma.book.update({ where: { id }, data })` together with
the `books_isbn_key` unique index: the write fails with `P2002` when the
row's new ISBN is held by any other row of the table (soft-deleted rows
included), and with `P2025` when no row has the id. -/
def prismaBookUpdate (db : List Book) (id : Nat) (data : BookUpdateInput) (now : Nat) :
    Except BookError (Book × List Book) :=
  match db.find? (fun b => b.id == id) with
  | none => .error .recordNotFound
  | some target =>
      let newIsbn := data.isbn.getD target.isbn
      if db.any (fun b => b.id != id && b.isbn == newIsbn) then
        .error .uniqueConstraint
      else
        let updated := applyBookUpdate target data now
        .ok (updated, db.map (fun b => if b.id == id then updated else b))

/-- The truthiness guard `data.isbn && data.isbn !== existingBook.isbn`
of `updateBook`: an absent or empty ISBN is falsy. -/
def isbnChangeRequested (data : BookUpdateInput) (existingBook : Book) : Bool :=
  match data.isbn with
  | some i => i != "" && i != existingBook.isbn
  | none => false

/-- `BookService.updateBook` over explicit catalog and queue state.
Returns the call's outcome together with the resulting table and queue;
a thrown error propagates to the caller with both unchanged, mirroring
that nothing was written before the throw.  Steps, in source order:
existence check on a non-deleted row (`NotFound`), duplicate-ISBN
pre-check against non-deleted rows when the ISBN is being changed
(`Conflict`), the database update, then — exactly when the pre-update
status was `Borrowed` and the requested status is `Available` — one
enqueue of a `wishlist-notification` job carrying the updated record's
id and title at priority 1. -/
def updateBook (db : List Book) (queue : List NotificationJob) (id : Nat)
    (data : BookUpdateInput) (now : Nat) :
    Except BookError Book × List Book × List NotificationJob :=
  match db.find? (fun b => b.id == id && !b.isDeleted) with
  | none => (.error .notFound, db, queue)
  | some existingBook =>
      if isbnChangeRequested data existingBook &&
          (db.find? (fun b => some b.isbn == data.isbn && !b.isDeleted)).isSome then
        (.error .duplicateIsbn, db, queue)
      else
        match prismaBookUpdate db id data now with
        | .error e => (.error e, db, queue)
        | .ok (updatedBook, db2) =>
            if existingBook.availabilityStatus == .Borrowed &&
                data.availabilityStatus == some .Available then
              (.ok updatedBook, db2,
                queue ++ [{ name := wishlistJobName, bookId := updatedBook.id,
                            bookTitle := updatedBook.title, priority := 1 }])
            else
              (.ok updatedBook, db2, queue)

/-- Character-list version of `startsWith`, used to embed substring
matching. -/
def startsWithChars : List Char → List Char → Bool
  | [], _ => true
  | _ :: _, [] => false
  | a :: as, b :: bs => a == b && startsWithChars as bs

/-- `hasSubChars needle hay` holds when `needle` occurs contiguously
inside `hay`. -/
def hasSubChars (needle : List Char) : List Char → Bool
  | [] => startsWithChars needle []
  | c :: cs => startsWithChars needle (c :: cs) || hasSubChars needle cs

/-- ASCII lowercasing of a character list, embedding the
case-insensitive collation used by the ORM filter. -/
def lowerChars (l : List Char) : List Char := l.map Char.toLower

/-- Embeds the ORM string filter `contains` with `mode: 'insensitive'`:
case-insensitive substring match. -/
def ciContains (haystack needle : String) : Bool :=
  hasSubChars (lowerChars needle.data) (lowerChars haystack.data)

/-- Drops leading whitespace from a character list. -/
def dropWhileWs : List Char → List Char
  | [] => []
  | c :: cs => if c.isWhitespace then dropWhileWs cs else c :: cs

/-- Embeds the JS `String.prototype.trim()` call of `searchBooks`:
strips whitespace from both ends. -/
def jsTrim (s : String) : String :=
  ⟨dropWhileWs (dropWhileWs s.data.reverse).reverse⟩

/-- Query parameters of the List endpoint (`page`, `limit`, optional
author and exact-year filters), after the controller's parsing and
defaulting. -/
structure BookQueryParams where
  page : Nat := 1
  limit : Nat := 10
  author : Option String := none
  publishedYear : Option Nat := none
deriving DecidableEq, Repr

/-- The `pagination` object returned by List and Search. -/
structure PaginationResult where
  page : Nat
  limit : Nat
  total : Nat
  totalPages : Nat
deriving DecidableEq, Repr

/-- Result of `getBooks`/`searchBooks`: a page of records plus the
pagination metadata. -/
structure GetBooksResult where
  books : List Book
  pagination : PaginationResult
deriving DecidableEq, Repr

/-- The `where` object built by `getBooks`: non-deleted rows, optional
case-insensitive author substring, optional exact year.  The `if
(author)` / `if (publishedYear)` truthiness guards mean an empty author
string or a zero year adds no filter. -/
def getBooksWhere (author : Option String) (publishedYear : Option Nat) (b : Book) : Bool :=
  !b.isDeleted &&
    (match author with
     | some a => if a == "" then true else ciContains b.author a
     | none => true) &&
    (match publishedYear with
     | some y => if y == 0 then true else b.publishedYear == y
     | none => true)

/-- Insertion step of the embedded `orderBy: { createdAt: 'desc' }`. -/
def insertByCreatedDesc (b : Book) : List Book → List Book
  | [] => [b]
  | c :: cs => if c.createdAt ≤ b.createdAt then b :: c :: cs else c :: insertByCreatedDesc b cs

/-- Embeds `orderBy: { createdAt: 'desc' }` as an insertion sort by
descending creation time. -/
def orderByCreatedDesc : List Book → List Book
  | [] => []
  | b :: bs => insertByCreatedDesc b (orderByCreatedDesc bs)

/-- `BookService.getBooks`: filters, orders by creation time descending,
applies `skip = (page - 1) * limit` and `take = limit`, and computes the
metadata with `totalPages = Math.ceil(total / limit)` (for the validated
range `limit ≥ 1` this is ceiling division). -/
def getBooks (db : List Book) (params : BookQueryParams) : GetBooksResult :=
  let skip := (params.page - 1) * params.limit
  let filtered := db.filter (getBooksWhere params.author params.publishedYear)
  let total := filtered.length
  { books := ((orderByCreatedDesc filtered).drop skip).take params.limit
    pagination :=
      { page := params.page, limit := params.limit, total := total
        totalPages := (total + params.limit - 1) / params.limit } }

/-- Query parameters of the Search endpoint after controller parsing. -/
structure SearchQueryParams where
  query : String
  page : Nat := 1
  limit : Nat := 10
deriving DecidableEq, Repr

/-- The `where` object built by `searchBooks`: non-deleted rows whose
title OR author contains the (trimmed) search term case-insensitively. -/
def searchWhere (searchTerm : String) (b : Book) : Bool :=
  !b.isDeleted && (ciContains b.title searchTerm || ciContains b.author searchTerm)

/-- `BookService.searchBooks`: trims the query, filters by title/author
substring, and paginates exactly as `getBooks` does. -/
def searchBooks (db : List Book) (params : SearchQueryParams) : GetBooksResult :=
  let searchTerm := jsTrim params.query
  let skip := (params.page - 1) * params.limit
  let filtered := db.filter (searchWhere searchTerm)
  let total := filtered.length
  { books := ((orderByCreatedDesc filtered).drop skip).take params.limit
    pagination :=
      { page := params.page, limit := params.limit, total := total
        totalPages := (total + params.limit - 1) / params.limit } }

/-- A row of the `wishlists` table. -/
structure Wishlist where
  id : Nat
  userId : Nat
  bookId : Nat
  createdAt : Nat
deriving DecidableEq, Repr

/-- A structured log record emitted by the worker: the message plus the
structured fields it is tagged with (`userId` only on per-user records,
`count` only on the summary record). -/
structure LogRecord where
  message : String
  userId : Option Nat
  bookId : Nat
  bookTitle : String
  count : Option Nat
deriving DecidableEq, Repr

/-- `NOTIFICATION_MESSAGES.WISHLIST_AVAILABLE` from
`utils/notificationMessages.ts`. -/
def NOTIFICATION_MESSAGES.WISHLIST_AVAILABLE (bookTitle : String) (userId : Nat) : String :=
  s!"Notification prepared for user_id: {userId}: Book [{bookTitle}] is now available."

/-- `NOTIFICATION_MESSAGES.WISHLIST_PROCESSED` from
`utils/notificationMessages.ts`. -/
def NOTIFICATION_MESSAGES.WISHLIST_PROCESSED (count : Nat) (bookTitle : String) : String :=
  s!"Processed {count} wishlist notifications for book: {bookTitle}"

/-- `NotificationResult` from `types/index.ts`. -/
structure NotificationResult where
  processed : Nat
  message : String
deriving DecidableEq, Repr

/-- The state the worker runs against: both tables plus the log sink. -/
structure AppState where
  books : List Book
  wishlists : List Wishlist
  log : List LogRecord
deriving DecidableEq, Repr

/-- The rows returned by the worker's
`prisma.wishlist.findMany({ where: { bookId } })`. -/
def wishlistEntriesFor (s : AppState) (bookId : Nat) : List Wishlist :=
  s.wishlists.filter (fun w => w.bookId == bookId)

/-- The per-user log record the worker emits for one wishlist entry. -/
def perUserLogRecord (bookId : Nat) (bookTitle : String) (w : Wishlist) : LogRecord :=
  { message := NOTIFICATION_MESSAGES.WISHLIST_AVAILABLE bookTitle w.userId
    userId := some w.userId, bookId := bookId, bookTitle := bookTitle, count := none }

/-- The summary log record the worker emits after the loop. -/
def summaryLogRecord (bookId : Nat) (bookTitle : String) (count : Nat) : LogRecord :=
  { message := NOTIFICATION_MESSAGES.WISHLIST_PROCESSED count bookTitle
    userId := none, bookId := bookId, bookTitle := bookTitle, count := some count }

/-- `processWishlistNotifications` (the Notification Worker), for a
book id already normalized to an integer: queries the wishlist rows for
the book, emits one per-user log record per row and one summary record,
and returns the `{ processed, message }` contract.  Its only write is to
the log sink. -/
def processWishlistNotifications (s : AppState) (bookId : Nat) (bookTitle : String) :
    NotificationResult × AppState :=
  let wishlists := wishlistEntriesFor s bookId
  let n := wishlists.length
  ({ processed := n
     message := s!"Processed {n} wishlist notifications for book: {bookTitle}" },
   { s with
      log := s.log ++ wishlists.map (perUserLogRecord bookId bookTitle) ++
        [summaryLogRecord bookId bookTitle n] })

/-- Create input used in the C2 run. -/
def c2Input : BookCreateInput :=
  { title := "Dune", author := "Frank Herbert", isbn := "9780441013593",
    publishedYear := 1965 }

/-- The record persisted by the first create of the C2 run. -/
def c2Book : Book :=
  { id := 1, title := "Dune", author := "Frank Herbert", isbn := "9780441013593",
    publishedYear := 1965, availabilityStatus := .Available, createdAt := 0,
    updatedAt := 0, isDeleted := false, deletedAt := none }

/-- The same record after the soft delete at time 1. -/
def c2BookDeleted : Book :=
  { c2Book with isDeleted := true, deletedAt := some 1 }

/-- Non-deleted book updated in the C6 run. -/
def c6BookA : Book :=
  { id := 1, title := "Alpha", author := "Ann", isbn := "1111111111",
    publishedYear := 2000, availabilityStatus := .Available, createdAt := 0,
    updatedAt := 0, isDeleted := false, deletedAt := none }

/-- Soft-deleted book holding the target ISBN in the C6 run. -/
def c6BookD : Book :=
  { id := 2, title := "Delta", author := "Dan", isbn := "2222222222",
    publishedYear := 2001, availabilityStatus := .Available, createdAt := 0,
    updatedAt := 0, isDeleted := true, deletedAt := some 0 }

/-- Update input of the C6 run: change the ISBN to the one held only by
the soft-deleted book. -/
def c6Data : BookUpdateInput := { isbn := some "2222222222" }

/-- The borrowed book updated in the C1 witness run. -/
def c1Book : Book :=
  { id := 1, title := "Gatsby", author := "Fitz", isbn := "1234567890",
    publishedYear := 1925, availabilityStatus := .Borrowed, createdAt := 0,
    updatedAt := 0, isDeleted := false, deletedAt := none }

/-- Update input of the C1 witness run: set status to `Available`. -/
def c1Data : BookUpdateInput := { availabilityStatus := some .Available }

/-- The record after the C1 witness update. -/
def c1Updated : Book := { c1Book with availabilityStatus := .Available, updatedAt := 7 }

/-- The `BookQueryParams` value built by the controller for a List
request with page `p`, limit `L` and the optional filters. -/
def listParams (p L : Nat) (author : Option String) (publishedYear : Option Nat) :
    BookQueryParams :=
  { page := p, limit := L, author := author, publishedYear := publishedYear }

/-- Catalog used by the C4 and C5 witnesses. -/
def c4Book1 : Book :=
  { id := 1, title := "One", author := "A", isbn := "1000000001",
    publishedYear := 2001, availabilityStatus := .Available, createdAt := 1,
    updatedAt := 1, isDeleted := false, deletedAt := none }

def c4Book2 : Book :=
  { id := 2, title := "Two", author := "B", isbn := "1000000002",
    publishedYear := 2002, availabilityStatus := .Available, createdAt := 2,
    updatedAt := 2, isDeleted := false, deletedAt := none }

def c4Book3 : Book :=
  { id := 3, title := "Three", author := "C", isbn := "1000000003",
    publishedYear := 2003, availabilityStatus := .Available, createdAt := 3,
    updatedAt := 3, isDeleted := false, deletedAt := none }

def c4Db : List Book := [c4Book1, c4Book2, c4Book3]

/-- The `SearchQueryParams` value built by the controller for a Search
request. -/
def mkSearchParams (q : String) (p L : Nat) : SearchQueryParams :=
  { query := q, page := p, limit := L }

/-- The soft-deleted record of the C5 witness catalog. -/
def c5Deleted : Book :=
  { id := 2, title := "Ghost", author := "G", isbn := "1000000009",
    publishedYear := 1999, availabilityStatus := .Available, createdAt := 0,
    updatedAt := 0, isDeleted := true, deletedAt := some 4 }

/-- C5 witness catalog: one live record, one soft-deleted record. -/
def c5Db : List Book := [c4Book1, c5Deleted]

/-! ## Theorems -/

theorem length_insertByCreatedDesc (b : Book) (l : List Book) :
    (insertByCreatedDesc b l).length = l.length + 1 := by
  induction l with
  | nil => rfl
  | cons c cs ih =>
      simp only [insertByCreatedDesc]
      split <;> simp [ih]

theorem length_orderByCreatedDesc (l : List Book) :
    (orderByCreatedDesc l).length = l.length := by
  induction l with
  | nil => rfl
  | cons b bs ih => simp [orderByCreatedDesc, length_insertByCreatedDesc, ih]

theorem mem_insertByCreatedDesc {a b : Book} {l : List Book} :
    a ∈ insertByCreatedDesc b l ↔ a = b ∨ a ∈ l := by
  induction l with
  | nil => simp [insertByCreatedDesc]
  | cons c cs ih =>
      simp only [insertByCreatedDesc]
      split
      · simp [or_comm, or_assoc, or_left_comm]
      · simp [ih]
        tauto

theorem mem_orderByCreatedDesc {a : Book} {l : List Book} :
    a ∈ orderByCreatedDesc l ↔ a ∈ l := by
  induction l with
  | nil => simp [orderByCreatedDesc]
  | cons b bs ih => simp [orderByCreatedDesc, mem_insertByCreatedDesc, ih]

/-- C2: end-to-end run of create → duplicate create → soft delete →
re-create with the same ISBN.  The first duplicate create fails with the
service's 409 Conflict as the claim states; but after the soft delete,
the service-level duplicate pre-check (restricted to non-deleted rows)
passes and the insert still fails, because the `books_isbn_key` unique
index spans soft-deleted rows — surfaced as a P2002 mapped to 409, not a
successful create. -/
theorem C2_isbn_reuse_blocked_by_unique_index :
    createBook [] 1 0 c2Input = .ok (c2Book, [c2Book]) ∧
    createBook [c2Book] 2 1 c2Input = .error .duplicateIsbn ∧
    BookError.statusCode .duplicateIsbn = 409 ∧
    deleteBook [c2Book] 1 1 = (.ok (), [c2BookDeleted]) ∧
    List.find? (fun b => b.isbn == c2Input.isbn && !b.isDeleted) [c2BookDeleted] = none ∧
    createBook [c2BookDeleted] 2 2 c2Input = .error .uniqueConstraint ∧
    BookError.statusCode .uniqueConstraint = 409 :=
  ⟨rfl, rfl, rfl, rfl, rfl, rfl, rfl⟩

/-- C6: no non-deleted book holds the requested ISBN, so per the claim
the update must not fail with Conflict; yet the database write trips the
table-wide `books_isbn_key` unique index on the soft-deleted holder and
the call fails with a P2002 surfaced as 409 Conflict. -/
theorem C6_conflict_from_soft_deleted_isbn_holder :
    List.find? (fun b => b.isbn == "2222222222" && !b.isDeleted) [c6BookA, c6BookD] = none ∧
    (updateBook [c6BookA, c6BookD] [] 1 c6Data 5).1 = .error .uniqueConstraint ∧
    BookError.statusCode .uniqueConstraint = 409 :=
  ⟨rfl, rfl, rfl⟩

/-- C7: whenever `updateBook` fails — `NotFound` for a missing or
soft-deleted target, `Conflict` on an ISBN collision, or a database
error from the write — the catalog table and the notification queue the
caller observes are exactly the ones passed in: the throw happens before
any record mutation and before any enqueue. -/
theorem C7_update_failure_is_atomic (db : List Book) (queue : List NotificationJob)
    (id : Nat) (data : BookUpdateInput) (now : Nat) (e : BookError)
    (herr : (updateBook db queue id data now).1 = .error e) :
    (updateBook db queue id data now).2.1 = db ∧
    (updateBook db queue id data now).2.2 = queue := by
  unfold updateBook at herr ⊢
  cases hfind : db.find? (fun b => b.id == id && !b.isDeleted) with
  | none => simp [hfind]
  | some existingBook =>
      simp only [hfind] at herr ⊢
      by_cases hdup : (isbnChangeRequested data existingBook &&
          (db.find? (fun b => some b.isbn == data.isbn && !b.isDeleted)).isSome) = true
      · rw [if_pos hdup]; exact ⟨rfl, rfl⟩
      · rw [if_neg hdup] at herr ⊢
        cases hupd : prismaBookUpdate db id data now with
        | error e2 => simp [hupd]
        | ok r =>
            obtain ⟨u, db2⟩ := r
            simp only [hupd] at herr
            by_cases hnotif : (existingBook.availabilityStatus == AvailabilityStatus.Borrowed &&
                data.availabilityStatus == some AvailabilityStatus.Available) = true
            · rw [if_pos hnotif] at herr; simp at herr
            · rw [if_neg hnotif] at herr; simp at herr

/-- C7 witness: updating a book absent from an empty catalog fails with
`NotFound` and leaves the (empty) catalog and queue unchanged. -/
theorem C7_update_failure_is_atomic_witness :
    (updateBook [] [] 1 {} 0).2.1 = [] ∧ (updateBook [] [] 1 {} 0).2.2 = [] :=
  C7_update_failure_is_atomic [] [] 1 {} 0 .notFound rfl

/-- C1: for every successful `updateBook` call, the queue afterwards is
the original queue plus exactly one `wishlist-notification` job carrying
the updated record's id and title — if and only if the pre-update status
of the target (the non-deleted record found for the id) was `Borrowed`
and the input requests status `Available`; on any other requested status
(or none) the queue is returned unchanged, so zero jobs are enqueued. -/
theorem C1_update_enqueues_iff_borrowed_to_available
    (db : List Book) (queue : List NotificationJob) (id : Nat)
    (data : BookUpdateInput) (now : Nat) (b : Book)
    (hok : (updateBook db queue id data now).1 = .ok b) :
    ∃ prev, db.find? (fun r => r.id == id && !r.isDeleted) = some prev ∧
      (updateBook db queue id data now).2.2 =
        (if prev.availabilityStatus == AvailabilityStatus.Borrowed &&
            data.availabilityStatus == some AvailabilityStatus.Available then
          queue ++ [{ name := wishlistJobName, bookId := b.id, bookTitle := b.title,
                      priority := 1 }]
         else queue) := by
  unfold updateBook at hok ⊢
  cases hfind : db.find? (fun r => r.id == id && !r.isDeleted) with
  | none => simp [hfind] at hok
  | some prev =>
      simp only [hfind] at hok ⊢
      refine ⟨prev, rfl, ?_⟩
      by_cases hdup : (isbnChangeRequested data prev &&
          (db.find? (fun r => some r.isbn == data.isbn && !r.isDeleted)).isSome) = true
      · rw [if_pos hdup] at hok; simp at hok
      · rw [if_neg hdup] at hok ⊢
        cases hupd : prismaBookUpdate db id data now with
        | error e => simp [hupd] at hok
        | ok r =>
            obtain ⟨u, db2⟩ := r
            simp only [hupd] at hok ⊢
            by_cases hnotif : (prev.availabilityStatus == AvailabilityStatus.Borrowed &&
                data.availabilityStatus == some AvailabilityStatus.Available) = true
            · rw [if_pos hnotif] at hok ⊢
              rw [if_pos hnotif]
              simp only [Except.ok.injEq] at hok
              subst hok
              rfl
            · rw [if_neg hnotif] at hok ⊢
              rw [if_neg hnotif]

/-- C1 witness: a Borrowed→Available update on a concrete one-book
catalog enqueues exactly the one expected job. -/
theorem C1_update_enqueues_iff_borrowed_to_available_witness :
    ∃ prev, [c1Book].find? (fun r => r.id == 1 && !r.isDeleted) = some prev ∧
      (updateBook [c1Book] [] 1 c1Data 7).2.2 =
        (if prev.availabilityStatus == AvailabilityStatus.Borrowed &&
            c1Data.availabilityStatus == some AvailabilityStatus.Available then
          [] ++ [{ name := wishlistJobName, bookId := c1Updated.id,
                   bookTitle := c1Updated.title, priority := 1 }]
         else []) :=
  C1_update_enqueues_iff_borrowed_to_available [c1Book] [] 1 c1Data 7 c1Updated rfl

/-- C3: for a book with N wishlist rows, the worker returns
`processed = N` with the exact message format, and appends to the log
precisely one per-user record per wishlist row — each tagged with that
row's user id, the book id and the book title — followed by exactly one
summary record; in particular the log grows by N + 1 records, and when
N = 0 the log gains only the summary record, so no per-user log is
emitted. -/
theorem C3_worker_processes_each_wishlist_row (s : AppState) (bookId : Nat) (title : String) :
    (processWishlistNotifications s bookId title).1.processed =
      (wishlistEntriesFor s bookId).length ∧
    (processWishlistNotifications s bookId title).1.message =
      NOTIFICATION_MESSAGES.WISHLIST_PROCESSED (wishlistEntriesFor s bookId).length title ∧
    (processWishlistNotifications s bookId title).2.log =
      s.log ++ (wishlistEntriesFor s bookId).map (perUserLogRecord bookId title) ++
        [summaryLogRecord bookId title (wishlistEntriesFor s bookId).length] ∧
    (processWishlistNotifications s bookId title).2.log.length =
      s.log.length + (wishlistEntriesFor s bookId).length + 1 := by
  refine ⟨rfl, rfl, rfl, ?_⟩
  simp [processWishlistNotifications]
  omega

/-- C9: the worker is idempotent and free of side effects beyond
logging: it leaves the catalog and wishlist tables untouched, and
running it again on the state it produced yields the same result and
appends the same set of notification records again. -/
theorem C9_worker_idempotent (s : AppState) (bookId : Nat) (title : String) :
    (processWishlistNotifications s bookId title).2.books = s.books ∧
    (processWishlistNotifications s bookId title).2.wishlists = s.wishlists ∧
    (processWishlistNotifications
        (processWishlistNotifications s bookId title).2 bookId title).1 =
      (processWishlistNotifications s bookId title).1 ∧
    (processWishlistNotifications
        (processWishlistNotifications s bookId title).2 bookId title).2.log =
      (processWishlistNotifications s bookId title).2.log ++
        (wishlistEntriesFor s bookId).map (perUserLogRecord bookId title) ++
        [summaryLogRecord bookId title (wishlistEntriesFor s bookId).length] :=
  ⟨rfl, rfl, rfl, rfl⟩

theorem total_le_pages_mul {T L p : Nat} (hL : 1 ≤ L) (hp : (T + L - 1) / L < p) :
    T ≤ (p - 1) * L := by
  have h1 : (T + L - 1) / L * L + (T + L - 1) % L = T + L - 1 := by
    rw [mul_comm]; exact Nat.div_add_mod _ _
  have h2 : (T + L - 1) % L < L := Nat.mod_lt _ (by omega)
  have h3 : T ≤ (T + L - 1) / L * L := by omega
  have h4 : (T + L - 1) / L ≤ p - 1 := by omega
  exact h3.trans (Nat.mul_le_mul h4 (le_refl L))

/-- C4: for any list query with limit 1 ≤ L ≤ 100 over a catalog whose
matching non-deleted records number T, the returned metadata is exactly
page, limit, `total = T`, `totalPages = ⌈T / L⌉`; and any requested page
beyond `totalPages` yields an empty `books` array (with that same
metadata, by the first conjunct, which holds for every page). -/
theorem C4_pagination_contract (db : List Book) (p L : Nat) (author : Option String)
    (publishedYear : Option Nat) (hL1 : 1 ≤ L) (_hL100 : L ≤ 100) :
    (getBooks db (listParams p L author publishedYear)).pagination =
      { page := p, limit := L,
        total := (db.filter (getBooksWhere author publishedYear)).length,
        totalPages := (db.filter (getBooksWhere author publishedYear)).length ⌈/⌉ L } ∧
    ((db.filter (getBooksWhere author publishedYear)).length ⌈/⌉ L < p →
      (getBooks db (listParams p L author publishedYear)).books = []) := by
  constructor
  · rfl
  · intro hp
    rw [Nat.ceilDiv_eq_add_pred_div] at hp
    have hT := total_le_pages_mul hL1 hp
    show ((orderByCreatedDesc (db.filter (getBooksWhere author publishedYear))).drop
      ((p - 1) * L)).take L = []
    have hdrop : (orderByCreatedDesc
        (db.filter (getBooksWhere author publishedYear))).drop ((p - 1) * L) = [] :=
      List.drop_eq_nil_of_le (by rw [length_orderByCreatedDesc]; exact hT)
    rw [hdrop, List.take_nil]

/-- C4 witness: 3 records with limit 2 give totalPages 2, and page 3 is
empty with the same metadata. -/
theorem C4_pagination_contract_witness :
    (getBooks c4Db (listParams 3 2 none none)).pagination =
      { page := 3, limit := 2, total := 3, totalPages := 2 } ∧
    (getBooks c4Db (listParams 3 2 none none)).books = [] := by
  have h := C4_pagination_contract c4Db 3 2 none none (by decide) (by decide)
  exact ⟨by rw [h.1]; decide, h.2 (by decide)⟩

theorem isDeleted_false_of_getBooksWhere {author : Option String}
    {publishedYear : Option Nat} {b : Book}
    (h : getBooksWhere author publishedYear b = true) : b.isDeleted = false := by
  unfold getBooksWhere at h
  simp only [Bool.and_eq_true, Bool.not_eq_true'] at h
  exact h.1.1

theorem isDeleted_false_of_searchWhere {searchTerm : String} {b : Book}
    (h : searchWhere searchTerm b = true) : b.isDeleted = false := by
  unfold searchWhere at h
  simp only [Bool.and_eq_true, Bool.not_eq_true'] at h
  exact h.1

/-- C5: soft deletion semantics.  (i) every record returned by List has
`isDeleted = false`; (ii) so does every record returned by Search;
(iii) `getBookById` only succeeds on a stored non-deleted record;
(iv) deleting a book that exists non-deleted succeeds by setting the
deleted flag and the deletion timestamp on that row, removing nothing:
the table keeps the same length and the same ids; (v) deleting an id
with no non-deleted record (nonexistent or already soft-deleted) fails
with `NotFound` (404) and leaves the table unchanged. -/
theorem C5_soft_delete_semantics :
    (∀ (db : List Book) (params : BookQueryParams) (b : Book),
        b ∈ (getBooks db params).books → b.isDeleted = false) ∧
    (∀ (db : List Book) (params : SearchQueryParams) (b : Book),
        b ∈ (searchBooks db params).books → b.isDeleted = false) ∧
    (∀ (db : List Book) (id : Nat) (b : Book),
        getBookById db id = .ok b → b.isDeleted = false ∧ b ∈ db) ∧
    (∀ (db : List Book) (id now : Nat) (b : Book),
        db.find? (fun r => r.id == id && !r.isDeleted) = some b →
        (deleteBook db id now).1 = .ok () ∧
        (deleteBook db id now).2 =
          db.map (fun r =>
            if r.id == id then { r with isDeleted := true, deletedAt := some now }
            else r) ∧
        (deleteBook db id now).2.length = db.length ∧
        (deleteBook db id now).2.map Book.id = db.map Book.id) ∧
    (∀ (db : List Book) (id now : Nat),
        db.find? (fun r => r.id == id && !r.isDeleted) = none →
        deleteBook db id now = (.error .notFound, db) ∧
        BookError.statusCode .notFound = 404) := by
  refine ⟨?_, ?_, ?_, ?_, ?_⟩
  · intro db params b hb
    have hb1 : b ∈ ((orderByCreatedDesc
        (db.filter (getBooksWhere params.author params.publishedYear))).drop
        ((params.page - 1) * params.limit)).take params.limit := hb
    have hb2 := List.mem_of_mem_drop (List.mem_of_mem_take hb1)
    rw [mem_orderByCreatedDesc, List.mem_filter] at hb2
    exact isDeleted_false_of_getBooksWhere hb2.2
  · intro db params b hb
    have hb1 : b ∈ ((orderByCreatedDesc
        (db.filter (searchWhere (jsTrim params.query)))).drop
        ((params.page - 1) * params.limit)).take params.limit := hb
    have hb2 := List.mem_of_mem_drop (List.mem_of_mem_take hb1)
    rw [mem_orderByCreatedDesc, List.mem_filter] at hb2
    exact isDeleted_false_of_searchWhere hb2.2
  · intro db id b hok
    unfold getBookById at hok
    cases hfind : db.find? (fun r => r.id == id && !r.isDeleted) with
    | none => simp [hfind] at hok
    | some bk =>
        simp only [hfind, Except.ok.injEq] at hok
        subst hok
        have hpred := List.find?_some hfind
        simp only [Bool.and_eq_true, Bool.not_eq_true'] at hpred
        exact ⟨hpred.2, List.mem_of_find?_eq_some hfind⟩
  · intro db id now b hfind
    unfold deleteBook
    simp only [hfind]
    have hid : ∀ r : Book,
        (if r.id == id then { r with isDeleted := true, deletedAt := some now }
         else r).id = r.id := by
      intro r; split <;> rfl
    refine ⟨trivial, trivial, by simp, ?_⟩
    rw [List.map_map]
    exact List.map_congr_left (fun r _ => hid r)
  · intro db id now hfind
    unfold deleteBook
    simp only [hfind]
    exact ⟨trivial, rfl⟩

/-- C5 witness: each part of the soft-delete theorem evaluated on the
concrete two-record catalog. -/
theorem C5_soft_delete_semantics_witness :
    c4Book1.isDeleted = false ∧
    (c4Book1.isDeleted = false ∧ c4Book1 ∈ c5Db) ∧
    ((deleteBook c5Db 1 9).1 = .ok () ∧
      (deleteBook c5Db 1 9).2 =
        c5Db.map (fun r =>
          if r.id == 1 then { r with isDeleted := true, deletedAt := some 9 }
          else r) ∧
      (deleteBook c5Db 1 9).2.length = c5Db.length ∧
      (deleteBook c5Db 1 9).2.map Book.id = c5Db.map Book.id) ∧
    (deleteBook c5Db 2 9 = (.error .notFound, c5Db) ∧
      BookError.statusCode .notFound = 404) := by
  have h := C5_soft_delete_semantics
  refine ⟨?_, ?_, ?_, ?_⟩
  · exact h.1 c5Db (listParams 1 10 none none) c4Book1 (by decide)
  · exact h.2.2.1 c5Db 1 c4Book1 rfl
  · exact h.2.2.2.1 c5Db 1 9 c4Book1 rfl
  · exact h.2.2.2.2 c5Db 2 9 rfl

theorem mem_take_drop_of_le {α : Type} {l : List α} {i L m : Nat} (hi : i < l.length)
    (hm : m ≤ i) (hr : i - m < L) :
    l[i] ∈ (l.drop m).take L := by
  obtain ⟨j, rfl⟩ : ∃ j, i = m + j := ⟨i - m, by omega⟩
  have hjlen : j < ((l.drop m).take L).length := by
    simp only [List.length_take, List.length_drop]
    omega
  have hmem := List.getElem_mem hjlen
  rwa [List.getElem_take, List.getElem_drop] at hmem

/-- C8: with a non-empty (trimmed) query and limit L ≥ 1, (i) every
record returned by Search is a stored non-deleted record whose title or
author contains the trimmed query case-insensitively; (ii) every such
record is returned on some page, so as pages range over all values
Search returns exactly the matching records; (iii) the pagination
metadata follows the same contract as List: total counts the matching
records and `totalPages = ⌈total / L⌉`. -/
theorem C8_search_matches (db : List Book) (q : String) (p L : Nat)
    (_hq : (jsTrim q) ≠ "") (hL : 1 ≤ L) :
    (∀ b ∈ (searchBooks db (mkSearchParams q p L)).books,
        b ∈ db ∧ b.isDeleted = false ∧
        (ciContains b.title (jsTrim q) || ciContains b.author (jsTrim q)) = true) ∧
    (∀ b ∈ db, b.isDeleted = false →
        (ciContains b.title (jsTrim q) || ciContains b.author (jsTrim q)) = true →
        ∃ pg, b ∈ (searchBooks db (mkSearchParams q pg L)).books) ∧
    (searchBooks db (mkSearchParams q p L)).pagination =
      { page := p, limit := L, total := (db.filter (searchWhere (jsTrim q))).length,
        totalPages := (db.filter (searchWhere (jsTrim q))).length ⌈/⌉ L } := by
  refine ⟨?_, ?_, rfl⟩
  · intro b hb
    have hb1 : b ∈ ((orderByCreatedDesc (db.filter (searchWhere (jsTrim q)))).drop
        ((p - 1) * L)).take L := hb
    have hb2 := List.mem_of_mem_drop (List.mem_of_mem_take hb1)
    rw [mem_orderByCreatedDesc, List.mem_filter] at hb2
    have hw := hb2.2
    unfold searchWhere at hw
    simp only [Bool.and_eq_true, Bool.not_eq_true'] at hw
    exact ⟨hb2.1, hw.1, hw.2⟩
  · intro b hb hdel hmatch
    have hfil : b ∈ db.filter (searchWhere (jsTrim q)) := by
      rw [List.mem_filter]
      refine ⟨hb, ?_⟩
      unfold searchWhere
      simp [hdel, hmatch]
    rw [← mem_orderByCreatedDesc] at hfil
    obtain ⟨i, hi, hbi⟩ := List.mem_iff_getElem.1 hfil
    have hm : i / L * L ≤ i := Nat.div_mul_le_self i L
    have h1 : i / L * L + i % L = i := by rw [mul_comm]; exact Nat.div_add_mod i L
    have h2 : i % L < L := Nat.mod_lt _ (by omega)
    have hr : i - i / L * L < L := by omega
    have hmem := mem_take_drop_of_le hi hm hr
    rw [hbi] at hmem
    refine ⟨i / L + 1, ?_⟩
    show b ∈ ((orderByCreatedDesc (db.filter (searchWhere (jsTrim q)))).drop
      (i / L * L)).take L
    exact hmem

/-- C8 witness: searching the two-record catalog for `" one "` (trimmed
to `"one"`) finds exactly the live record titled `"One"`. -/
theorem C8_search_matches_witness :
    (c4Book1 ∈ c5Db ∧ c4Book1.isDeleted = false ∧
      (ciContains c4Book1.title (jsTrim " one ") ||
        ciContains c4Book1.author (jsTrim " one ")) = true) ∧
    (∃ pg, c4Book1 ∈ (searchBooks c5Db (mkSearchParams " one " pg 10)).books) ∧
    (searchBooks c5Db (mkSearchParams " one " 1 10)).pagination =
      { page := 1, limit := 10, total := 1, totalPages := 1 } := by
  have h := C8_search_matches c5Db " one " 1 10 (by decide) (by decide)
  refine ⟨h.1 c4Book1 (by decide), h.2.1 c4Book1 (by decide) (by decide) (by decide), ?_⟩
  rw [h.2.2]; decide
